import Mathlib

/-!
Verification of the user-record data-access layer in
`src/repository/users.py`.

The database is modelled as a list of `User` rows together with a counter of
committed transactions.  Each repository operation is embedded as explicit
state passing: a function from the input arguments and the current `DB` to a
result paired with the new `DB`.  Fallible paths (the Python `AttributeError`
raised when an attribute is set on `None`, and SQLAlchemy's
`MultipleResultsFound` raised by `scalar_one_or_none`) are embedded with
`Except`.
-/

namespace UsersRepo

/-- A `User` row.  The entity definition (`src/entity/models.py`) is not part
of the provided sources; the fields follow the spec's data model: `email`,
`password`, optional `avatar`, `confirmed` (initially false), optional
`refresh_token`, optional `password_reset_token`. -/
structure User where
  email : String
  password : String
  avatar : Option String
  confirmed : Bool
  refresh_token : Option String
  password_reset_token : Option String
deriving Repr, DecidableEq

/-- Modelled from the spec: the user-creation payload `UserModel`
(`src/schemas/user.py` is not among the provided sources).  It carries the
caller-supplied fields of a new account: the identifying email and the
stored credential. -/
structure UserModel where
  email : String
  password : String
deriving Repr, DecidableEq

/-- The database session state: the stored rows and how many commits have
been issued on the session. -/
structure DB where
  users : List User
  commits : Nat
deriving Repr, DecidableEq

/-- Errors that can escape an operation of this module. -/
inductive DBError where
  /-- Python `AttributeError`: an attribute was set on `None`
  (the lookup found no user and the code dereferenced the result). -/
  | attributeErrorOnNone
  /-- SQLAlchemy `MultipleResultsFound` from `scalar_one_or_none` when the
  filtered query returns more than one row. -/
  | multipleResultsFound
deriving Repr, DecidableEq

/-- `Result.scalar_one_or_none()`: `None` for no row, the row itself for
exactly one, and `MultipleResultsFound` for several. -/
def scalar_one_or_none (rows : List User) : Except DBError (Option User) :=
  match rows with
  | [] => .ok none
  | [u] => .ok (some u)
  | _ :: _ :: _ => .error .multipleResultsFound

/-- `get_user_by_email`: `select(User).filter_by(email=email)` followed by
`scalar_one_or_none`. -/
def get_user_by_email (email : String) (db : DB) : Except DBError (Option User) :=
  scalar_one_or_none (db.users.filter (fun u => u.email == email))

/-- `db.commit()`: one more committed transaction on the session. -/
def DB.commit (db : DB) : DB :=
  { db with commits := db.commits + 1 }

/-- Mutating the ORM object returned by a lookup keyed on `email` and
committing updates the row with that email in the store. -/
def updateRowL (l : List User) (email : String) (f : User → User) : List User :=
  l.map (fun u => if u.email == email then f u else u)

/-- `updateRowL` lifted to the session state. -/
def updateRow (db : DB) (email : String) (f : User → User) : DB :=
  { db with users := updateRowL db.users email f }

/-- Modelled from the spec: the external gravatar lookup
(`libgravatar.Gravatar(...).get_image()`, a third-party service outside this
repository).  Per the spec's glossary it maps an email's hash to a default
avatar image URL; when the service is unreachable the call fails. -/
def gravatar_get_image (reachable : Bool) (hash : String → String)
    (email : String) : Except String String :=
  if reachable then .ok ("https://www.gravatar.com/avatar/" ++ hash email)
  else .error "gravatar unreachable"

/-- `create_user`: best-effort avatar lookup (any failure is swallowed and
leaves `avatar = None`), then insert, commit, and refresh of the new row.
The external lookup is passed in as `get_image`. -/
def create_user (get_image : String → Except String String)
    (body : UserModel) (db : DB) : User × DB :=
  let avatar : Option String :=
    match get_image body.email with
    | .ok url => some url
    | .error _ => none
  let new_user : User :=
    { email := body.email, password := body.password, avatar := avatar,
      confirmed := false, refresh_token := none, password_reset_token := none }
  let db' := (DB.mk (db.users ++ [new_user]) db.commits).commit
  (new_user, db')

/-- `update_token`: set `user.refresh_token = token` on the resolved user and
commit.  The function returns nothing; the new session state is the result. -/
def update_token (user : User) (token : Option String) (db : DB) : DB :=
  (updateRow db user.email (fun u => { u with refresh_token := token })).commit

/-- `confirmed_email`: look the user up by email, set `user.confirmed = True`,
commit.  Setting the attribute on a `None` lookup result raises
`AttributeError`. -/
def confirmed_email (email : String) (db : DB) : Except DBError DB :=
  match get_user_by_email email db with
  | .error e => .error e
  | .ok none => .error .attributeErrorOnNone
  | .ok (some _) =>
      .ok (updateRow db email (fun u => { u with confirmed := true })).commit

/-- `update_avatar_url`: look the user up by email, set `user.avatar = url`,
commit, refresh the row, and return it. -/
def update_avatar_url (email : String) (url : Option String) (db : DB) :
    Except DBError (User × DB) :=
  match get_user_by_email email db with
  | .error e => .error e
  | .ok none => .error .attributeErrorOnNone
  | .ok (some user) =>
      .ok ({ user with avatar := url },
        (updateRow db email (fun u => { u with avatar := url })).commit)

/-- `set_new_password`: look the user up by email, set
`user.password = new_password`, commit, and return the user. -/
def set_new_password (email : String) (new_password : String) (db : DB) :
    Except DBError (User × DB) :=
  match get_user_by_email email db with
  | .error e => .error e
  | .ok none => .error .attributeErrorOnNone
  | .ok (some user) =>
      .ok ({ user with password := new_password },
        (updateRow db email (fun u => { u with password := new_password })).commit)

/-- `update_reset_token`: set `user.password_reset_token = reset_token` on the
resolved user, commit, and return the user. -/
def update_reset_token (user : User) (reset_token : Option String) (db : DB) :
    User × DB :=
  ({ user with password_reset_token := reset_token },
    (updateRow db user.email
      (fun u => { u with password_reset_token := reset_token })).commit)

/-! ### Frame relations: agreement on every field except the named one -/

/-- `w` agrees with `v` on every field except possibly `refresh_token`. -/
def sameApartRefreshToken (v w : User) : Prop :=
  w.email = v.email ∧ w.password = v.password ∧ w.avatar = v.avatar ∧
  w.confirmed = v.confirmed ∧ w.password_reset_token = v.password_reset_token

/-- `w` agrees with `v` on every field except possibly `confirmed`. -/
def sameApartConfirmed (v w : User) : Prop :=
  w.email = v.email ∧ w.password = v.password ∧ w.avatar = v.avatar ∧
  w.refresh_token = v.refresh_token ∧ w.password_reset_token = v.password_reset_token

/-- `w` agrees with `v` on every field except possibly `password`. -/
def sameApartPassword (v w : User) : Prop :=
  w.email = v.email ∧ w.avatar = v.avatar ∧ w.confirmed = v.confirmed ∧
  w.refresh_token = v.refresh_token ∧ w.password_reset_token = v.password_reset_token

/-- `w` agrees with `v` on every field except possibly `password_reset_token`. -/
def sameApartResetToken (v w : User) : Prop :=
  w.email = v.email ∧ w.password = v.password ∧ w.avatar = v.avatar ∧
  w.confirmed = v.confirmed ∧ w.refresh_token = v.refresh_token

/-! ### Concrete session used by the witnesses -/

/-- A sample stored user. -/
def u0 : User :=
  { email := "ann@example.com", password := "pw0", avatar := none,
    confirmed := false, refresh_token := none, password_reset_token := none }

/-- A sample session holding exactly `u0`, with no commits issued yet. -/
def db0 : DB := { users := [u0], commits := 0 }

/-- `u0` after email confirmation. -/
def u0conf : User := { u0 with confirmed := true }

/-- `u0` after a password change to `"npw"`. -/
def u0pw : User := { u0 with password := "npw" }

/-- `u0` after an avatar update. -/
def u0av : User := { u0 with avatar := some "http://img.example.com/a.png" }

/-- The session after confirming `u0`'s email. -/
def db1c : DB := { users := [u0conf], commits := 1 }

/-- The session after changing `u0`'s password. -/
def db1p : DB := { users := [u0pw], commits := 1 }

/-- The session after updating `u0`'s avatar. -/
def db1a : DB := { users := [u0av], commits := 1 }

/-! ### Helper lemmas -/

lemma get_user_by_email_commit (email : String) (db : DB) :
    get_user_by_email email db.commit = get_user_by_email email db := rfl

lemma filter_eq_singleton {l : List User} {email : String} {u : User}
    (hmem : u ∈ l) (hu : u.email = email)
    (huniq : (l.filter (fun v => v.email == email)).length ≤ 1) :
    l.filter (fun v => v.email == email) = [u] := by
  have hmemf : u ∈ l.filter (fun v => v.email == email) :=
    List.mem_filter.mpr ⟨hmem, by simp [hu]⟩
  have hpos : 0 < (l.filter (fun v => v.email == email)).length :=
    List.length_pos.mpr (List.ne_nil_of_mem hmemf)
  have hlen : (l.filter (fun v => v.email == email)).length = 1 :=
    Nat.le_antisymm huniq hpos
  obtain ⟨x, hx⟩ := List.length_eq_one.mp hlen
  rw [hx] at hmemf
  rw [hx, List.mem_singleton.mp hmemf]

lemma filter_updateRowL (l : List User) (email : String) (f : User → User)
    (hf : ∀ u, (f u).email = u.email) :
    (updateRowL l email f).filter (fun u => u.email == email) =
      (l.filter (fun u => u.email == email)).map f := by
  induction l with
  | nil => rfl
  | cons a l ih =>
    simp only [updateRowL] at ih ⊢
    by_cases h : a.email = email
    · simp [List.filter_cons, h, hf] at ih ⊢
      exact ih
    · simp [List.filter_cons, h] at ih ⊢
      exact ih

lemma get_user_by_email_updateRow (db : DB) (email : String) (u : User)
    (f : User → User) (hf : ∀ v, (f v).email = v.email)
    (hfilter : db.users.filter (fun v => v.email == email) = [u]) :
    get_user_by_email email (updateRow db email f) = .ok (some (f u)) := by
  unfold get_user_by_email updateRow
  rw [show (DB.mk (updateRowL db.users email f) db.commits).users =
        updateRowL db.users email f from rfl,
      filter_updateRowL db.users email f hf, hfilter]
  rfl

lemma forall2_map_self {R : User → User → Prop} (g : User → User) (l : List User)
    (h : ∀ a ∈ l, R a (g a)) : List.Forall₂ R l (l.map g) := by
  induction l with
  | nil => exact List.Forall₂.nil
  | cons a l ih =>
    exact List.Forall₂.cons (h a (List.mem_cons_self a l))
      (ih fun b hb => h b (List.mem_cons_of_mem a hb))

lemma confirmed_email_ok_eq {email : String} {db db' : DB}
    (h : confirmed_email email db = .ok db') :
    db' = (updateRow db email (fun u => { u with confirmed := true })).commit := by
  unfold confirmed_email at h
  cases hg : get_user_by_email email db with
  | error e => rw [hg] at h; exact absurd h (by simp)
  | ok o =>
    cases o with
    | none => rw [hg] at h; exact absurd h (by simp)
    | some u =>
      rw [hg] at h
      simp only [Except.ok.injEq] at h
      exact h.symm

lemma update_avatar_url_ok_eq {email : String} {url : Option String} {db : DB}
    {r : User × DB} (h : update_avatar_url email url db = .ok r) :
    r.2 = (updateRow db email (fun u => { u with avatar := url })).commit := by
  unfold update_avatar_url at h
  cases hg : get_user_by_email email db with
  | error e => rw [hg] at h; exact absurd h (by simp)
  | ok o =>
    cases o with
    | none => rw [hg] at h; exact absurd h (by simp)
    | some u =>
      rw [hg] at h
      simp only [Except.ok.injEq] at h
      rw [← h]

lemma set_new_password_ok_eq {email pw : String} {db : DB}
    {r : User × DB} (h : set_new_password email pw db = .ok r) :
    r.2 = (updateRow db email (fun u => { u with password := pw })).commit := by
  unfold set_new_password at h
  cases hg : get_user_by_email email db with
  | error e => rw [hg] at h; exact absurd h (by simp)
  | ok o =>
    cases o with
    | none => rw [hg] at h; exact absurd h (by simp)
    | some u =>
      rw [hg] at h
      simp only [Except.ok.injEq] at h
      rw [← h]

/-! ### Claim theorems -/

/-- C1: the claim asks for a defined "not found" error result from
`confirmed_email`, `update_avatar_url` and `set_new_password` on an unknown
email.  The code instead dereferences the `None` lookup result, raising the
Python `AttributeError` this theorem evaluates: on a session with no users,
all three operations fail with the attribute-access error, not a defined
not-found result. -/
theorem missing_user_attribute_error :
    confirmed_email "ghost@example.com" { users := [], commits := 0 } =
      .error .attributeErrorOnNone ∧
    update_avatar_url "ghost@example.com" (some "http://img.example.com/a.png")
      { users := [], commits := 0 } = .error .attributeErrorOnNone ∧
    set_new_password "ghost@example.com" "pw" { users := [], commits := 0 } =
      .error .attributeErrorOnNone :=
  ⟨rfl, rfl, rfl⟩

/-- C2: under the schema invariant that at most one row carries a given email,
`get_user_by_email` either returns `none` (and then no stored user has that
email) or returns the unique matching user; in both cases the result is `ok`,
so the not-found case never raises. -/
theorem get_user_by_email_total (email : String) (db : DB)
    (huniq : (db.users.filter (fun v => v.email == email)).length ≤ 1) :
    (get_user_by_email email db = .ok none ∧ ∀ u ∈ db.users, u.email ≠ email) ∨
    (∃ u, get_user_by_email email db = .ok (some u) ∧ u ∈ db.users ∧
      u.email = email) := by
  cases hfil : db.users.filter (fun v => v.email == email) with
  | nil =>
    left
    constructor
    · unfold get_user_by_email
      rw [hfil]
      rfl
    · intro u hu he
      have hmf : u ∈ db.users.filter (fun v => v.email == email) :=
        List.mem_filter.mpr ⟨hu, by simp [he]⟩
      rw [hfil] at hmf
      exact absurd hmf (List.not_mem_nil u)
  | cons a t =>
    cases t with
    | nil =>
      right
      have hma : a ∈ db.users.filter (fun v => v.email == email) := by
        rw [hfil]; exact List.mem_singleton_self a
      refine ⟨a, ?_, (List.mem_filter.mp hma).1, ?_⟩
      · unfold get_user_by_email
        rw [hfil]
        rfl
      · have := (List.mem_filter.mp hma).2
        simpa using this
    | cons b t2 =>
      rw [hfil] at huniq
      simp only [List.length_cons] at huniq
      omega

/-- C2 witness: the theorem applied to the sample session and the stored
email, where the uniqueness hypothesis holds. -/
theorem get_user_by_email_total_witness :
    ((db0.users.filter (fun v => v.email == "ann@example.com")).length ≤ 1) ∧
    ((get_user_by_email "ann@example.com" db0 = .ok none ∧
        ∀ u ∈ db0.users, u.email ≠ "ann@example.com") ∨
     (∃ u, get_user_by_email "ann@example.com" db0 = .ok (some u) ∧
        u ∈ db0.users ∧ u.email = "ann@example.com")) :=
  ⟨by decide, get_user_by_email_total "ann@example.com" db0 (by decide)⟩

/-- C3: when the external avatar lookup fails with any error, `create_user`
swallows the failure, inserts the new user with `avatar = none`, and returns
that user; the return type is error-free, so no lookup error propagates. -/
theorem create_user_lookup_failure_suppressed (err : String) (body : UserModel)
    (db : DB) :
    (create_user (fun _ => .error err) body db).1.avatar = none ∧
    (create_user (fun _ => .error err) body db).1.email = body.email ∧
    (create_user (fun _ => .error err) body db).1.password = body.password ∧
    (create_user (fun _ => .error err) body db).1 ∈
      (create_user (fun _ => .error err) body db).2.users := by
  refine ⟨rfl, rfl, rfl, ?_⟩
  simp [create_user, DB.commit]

/-- C4: when the external avatar lookup succeeds, `create_user` returns a user
whose avatar is exactly the non-empty URL the lookup produced for the
payload's email, with the remaining caller-supplied fields taken from the
payload, and inserts that user. -/
theorem create_user_avatar_success (hash : String → String) (body : UserModel)
    (db : DB) :
    (∃ url, gravatar_get_image true hash body.email = .ok url ∧
      (create_user (gravatar_get_image true hash) body db).1.avatar = some url ∧
      url ≠ "") ∧
    (create_user (gravatar_get_image true hash) body db).1.email = body.email ∧
    (create_user (gravatar_get_image true hash) body db).1.password =
      body.password ∧
    (create_user (gravatar_get_image true hash) body db).1 ∈
      (create_user (gravatar_get_image true hash) body db).2.users := by
  refine ⟨⟨"https://www.gravatar.com/avatar/" ++ hash body.email, rfl, rfl, ?_⟩,
    rfl, rfl, ?_⟩
  · intro hempty
    have h2 := congrArg String.length hempty
    rw [String.length_append] at h2
    have h3 : ("https://www.gravatar.com/avatar/" : String).length = 32 := rfl
    have h4 : ("" : String).length = 0 := rfl
    rw [h3, h4] at h2
    omega
  · simp [create_user, DB.commit]

/-- C5: for an existing user (under the email-uniqueness invariant),
`set_new_password` succeeds, returns the user with `password` set verbatim to
the new password, and a fresh lookup on the resulting session returns that
same user, whose password equals the new password with no transformation. -/
theorem set_new_password_verbatim (email pw : String) (db : DB) (u : User)
    (hmem : u ∈ db.users) (hu : u.email = email)
    (huniq : (db.users.filter (fun v => v.email == email)).length ≤ 1) :
    ∃ ret db', set_new_password email pw db = .ok (ret, db') ∧
      ret.password = pw ∧
      get_user_by_email email db' = .ok (some ret) := by
  have hfil := filter_eq_singleton hmem hu huniq
  have hget : get_user_by_email email db = .ok (some u) := by
    unfold get_user_by_email
    rw [hfil]
    rfl
  refine ⟨{ u with password := pw },
    (updateRow db email (fun v => { v with password := pw })).commit, ?_, rfl, ?_⟩
  · unfold set_new_password
    rw [hget]
  · rw [get_user_by_email_commit]
    exact get_user_by_email_updateRow db email u _ (fun v => rfl) hfil

/-- C5 witness: the theorem applied to the sample session, its stored user,
and the password `"npw"`. -/
theorem set_new_password_verbatim_witness :
    (u0 ∈ db0.users ∧ u0.email = "ann@example.com" ∧
     (db0.users.filter (fun v => v.email == "ann@example.com")).length ≤ 1) ∧
    (∃ ret db', set_new_password "ann@example.com" "npw" db0 = .ok (ret, db') ∧
      ret.password = "npw" ∧
      get_user_by_email "ann@example.com" db' = .ok (some ret)) :=
  ⟨⟨by decide, by decide, by decide⟩,
   set_new_password_verbatim "ann@example.com" "npw" db0 u0
     (by decide) (by decide) (by decide)⟩

/-- C6: for an existing user (under the email-uniqueness invariant),
`confirmed_email` succeeds, one commit is issued, and a fresh lookup on the
resulting session shows the user with `confirmed = true`. -/
theorem confirmed_email_confirms (email : String) (db : DB) (u : User)
    (hmem : u ∈ db.users) (hu : u.email = email)
    (huniq : (db.users.filter (fun v => v.email == email)).length ≤ 1) :
    ∃ db' v, confirmed_email email db = .ok db' ∧
      get_user_by_email email db' = .ok (some v) ∧ v.confirmed = true ∧
      db'.commits = db.commits + 1 := by
  have hfil := filter_eq_singleton hmem hu huniq
  have hget : get_user_by_email email db = .ok (some u) := by
    unfold get_user_by_email
    rw [hfil]
    rfl
  refine ⟨(updateRow db email (fun v => { v with confirmed := true })).commit,
    { u with confirmed := true }, ?_, ?_, rfl, rfl⟩
  · unfold confirmed_email
    rw [hget]
  · rw [get_user_by_email_commit]
    exact get_user_by_email_updateRow db email u _ (fun v => rfl) hfil

/-- C6 witness: the theorem applied to the sample session and its stored,
initially unconfirmed user. -/
theorem confirmed_email_confirms_witness :
    (u0 ∈ db0.users ∧ u0.email = "ann@example.com" ∧
     (db0.users.filter (fun v => v.email == "ann@example.com")).length ≤ 1) ∧
    (∃ db' v, confirmed_email "ann@example.com" db0 = .ok db' ∧
      get_user_by_email "ann@example.com" db' = .ok (some v) ∧
      v.confirmed = true ∧ db'.commits = db0.commits + 1) :=
  ⟨⟨by decide, by decide, by decide⟩,
   confirmed_email_confirms "ann@example.com" db0 u0
     (by decide) (by decide) (by decide)⟩

/-- C7: for a resolved user present in the session (under the
email-uniqueness invariant) and any token value — a string or `none` — after
`update_token` a fresh lookup of that user shows `refresh_token` equal to
exactly that value. -/
theorem update_token_stored (u : User) (token : Option String) (db : DB)
    (hmem : u ∈ db.users)
    (huniq : (db.users.filter (fun v => v.email == u.email)).length ≤ 1) :
    ∃ v, get_user_by_email u.email (update_token u token db) = .ok (some v) ∧
      v.refresh_token = token := by
  have hfil := filter_eq_singleton hmem rfl huniq
  refine ⟨{ u with refresh_token := token }, ?_, rfl⟩
  unfold update_token
  rw [get_user_by_email_commit]
  exact get_user_by_email_updateRow db u.email u _ (fun v => rfl) hfil

/-- C7 witness: the theorem applied to the sample session and its stored user
with a concrete token. -/
theorem update_token_stored_witness :
    (u0 ∈ db0.users ∧
     (db0.users.filter (fun v => v.email == u0.email)).length ≤ 1) ∧
    (∃ v, get_user_by_email u0.email (update_token u0 (some "tok") db0) =
        .ok (some v) ∧ v.refresh_token = some "tok") :=
  ⟨⟨by decide, by decide⟩,
   update_token_stored u0 (some "tok") db0 (by decide) (by decide)⟩

/-- C8: for an existing user (under the email-uniqueness invariant) and any
url value — a string or `none` — `update_avatar_url` succeeds, returns the
user with `avatar` set to exactly that value, issues one commit, and a fresh
lookup on the resulting session returns that same (reloaded) user. -/
theorem update_avatar_url_stored (email : String) (url : Option String)
    (db : DB) (u : User)
    (hmem : u ∈ db.users) (hu : u.email = email)
    (huniq : (db.users.filter (fun v => v.email == email)).length ≤ 1) :
    ∃ ret db', update_avatar_url email url db = .ok (ret, db') ∧
      ret = { u with avatar := url } ∧ ret.avatar = url ∧
      db'.commits = db.commits + 1 ∧
      get_user_by_email email db' = .ok (some ret) := by
  have hfil := filter_eq_singleton hmem hu huniq
  have hget : get_user_by_email email db = .ok (some u) := by
    unfold get_user_by_email
    rw [hfil]
    rfl
  refine ⟨{ u with avatar := url },
    (updateRow db email (fun v => { v with avatar := url })).commit,
    ?_, rfl, rfl, rfl, ?_⟩
  · unfold update_avatar_url
    rw [hget]
  · rw [get_user_by_email_commit]
    exact get_user_by_email_updateRow db email u _ (fun v => rfl) hfil

/-- C8 witness: the theorem applied to the sample session, its stored user,
and a concrete avatar URL. -/
theorem update_avatar_url_stored_witness :
    (u0 ∈ db0.users ∧ u0.email = "ann@example.com" ∧
     (db0.users.filter (fun v => v.email == "ann@example.com")).length ≤ 1) ∧
    (∃ ret db', update_avatar_url "ann@example.com"
        (some "http://img.example.com/a.png") db0 = .ok (ret, db') ∧
      ret = { u0 with avatar := some "http://img.example.com/a.png" } ∧
      ret.avatar = some "http://img.example.com/a.png" ∧
      db'.commits = db0.commits + 1 ∧
      get_user_by_email "ann@example.com" db' = .ok (some ret)) :=
  ⟨⟨by decide, by decide, by decide⟩,
   update_avatar_url_stored "ann@example.com"
     (some "http://img.example.com/a.png") db0 u0
     (by decide) (by decide) (by decide)⟩

/-- C9: every operation of the module issues exactly one commit on the
supplied session per invocation: `create_user`, `update_token` and
`update_reset_token` unconditionally, and `confirmed_email`,
`update_avatar_url` and `set_new_password` on every invocation that completes
(`ok`); none retries or spans several transactions. -/
theorem single_commit_per_operation (gi : String → Except String String)
    (body : UserModel) (u : User) (t rt : Option String) (url : Option String)
    (email pw : String) (db db1 : DB) (r2 r3 : User × DB)
    (h1 : confirmed_email email db = .ok db1)
    (h2 : update_avatar_url email url db = .ok r2)
    (h3 : set_new_password email pw db = .ok r3) :
    (create_user gi body db).2.commits = db.commits + 1 ∧
    (update_token u t db).commits = db.commits + 1 ∧
    db1.commits = db.commits + 1 ∧
    r2.2.commits = db.commits + 1 ∧
    r3.2.commits = db.commits + 1 ∧
    (update_reset_token u rt db).2.commits = db.commits + 1 := by
  refine ⟨rfl, rfl, ?_, ?_, ?_, rfl⟩
  · rw [confirmed_email_ok_eq h1]
    rfl
  · rw [update_avatar_url_ok_eq h2]
    rfl
  · rw [set_new_password_ok_eq h3]
    rfl

/-- C9 witness: the theorem applied to the sample session, on which all six
operations complete, with the committed results given explicitly. -/
theorem single_commit_per_operation_witness :
    (confirmed_email "ann@example.com" db0 = .ok db1c ∧
     update_avatar_url "ann@example.com" (some "http://img.example.com/a.png")
        db0 = .ok (u0av, db1a) ∧
     set_new_password "ann@example.com" "npw" db0 = .ok (u0pw, db1p)) ∧
    ((create_user (gravatar_get_image false (fun _ => ""))
        { email := "bob@example.com", password := "p" } db0).2.commits =
      db0.commits + 1 ∧
     (update_token u0 (some "tok") db0).commits = db0.commits + 1 ∧
     db1c.commits = db0.commits + 1 ∧
     (u0av, db1a).2.commits = db0.commits + 1 ∧
     (u0pw, db1p).2.commits = db0.commits + 1 ∧
     (update_reset_token u0 (some "rt") db0).2.commits = db0.commits + 1) :=
  ⟨⟨rfl, rfl, rfl⟩,
   single_commit_per_operation (gravatar_get_image false (fun _ => ""))
     { email := "bob@example.com", password := "p" } u0 (some "tok")
     (some "rt") (some "http://img.example.com/a.png") "ann@example.com" "npw"
     db0 db1c (u0av, db1a) (u0pw, db1p) rfl rfl rfl⟩

/-- C10: each single-field mutation leaves every other field of every stored
row unchanged: after `update_token` every row agrees with its predecessor on
all fields but `refresh_token`; after a completing `confirmed_email` on all
but `confirmed`; after a completing `set_new_password` on all but `password`;
after `update_reset_token` on all but `password_reset_token` — in particular
`email` is everywhere preserved. -/
theorem mutations_preserve_other_fields (u : User) (t rt : Option String)
    (email pw : String) (db db1 : DB) (r3 : User × DB)
    (h1 : confirmed_email email db = .ok db1)
    (h3 : set_new_password email pw db = .ok r3) :
    List.Forall₂ sameApartRefreshToken db.users (update_token u t db).users ∧
    List.Forall₂ sameApartConfirmed db.users db1.users ∧
    List.Forall₂ sameApartPassword db.users r3.2.users ∧
    List.Forall₂ sameApartResetToken db.users
      (update_reset_token u rt db).2.users := by
  refine ⟨?_, ?_, ?_, ?_⟩
  · show List.Forall₂ sameApartRefreshToken db.users
      (updateRowL db.users u.email (fun v => { v with refresh_token := t }))
    apply forall2_map_self
    intro a _
    by_cases h : (a.email == u.email) = true
    · simp [h, sameApartRefreshToken]
    · simp [h, sameApartRefreshToken]
  · rw [confirmed_email_ok_eq h1]
    show List.Forall₂ sameApartConfirmed db.users
      (updateRowL db.users email (fun v => { v with confirmed := true }))
    apply forall2_map_self
    intro a _
    by_cases h : (a.email == email) = true
    · simp [h, sameApartConfirmed]
    · simp [h, sameApartConfirmed]
  · rw [set_new_password_ok_eq h3]
    show List.Forall₂ sameApartPassword db.users
      (updateRowL db.users email (fun v => { v with password := pw }))
    apply forall2_map_self
    intro a _
    by_cases h : (a.email == email) = true
    · simp [h, sameApartPassword]
    · simp [h, sameApartPassword]
  · show List.Forall₂ sameApartResetToken db.users
      (updateRowL db.users u.email
        (fun v => { v with password_reset_token := rt }))
    apply forall2_map_self
    intro a _
    by_cases h : (a.email == u.email) = true
    · simp [h, sameApartResetToken]
    · simp [h, sameApartResetToken]

/-- C10 witness: the theorem applied to the sample session, on which the two
lookup-based mutations complete with the results given explicitly. -/
theorem mutations_preserve_other_fields_witness :
    (confirmed_email "ann@example.com" db0 = .ok db1c ∧
     set_new_password "ann@example.com" "npw" db0 = .ok (u0pw, db1p)) ∧
    (List.Forall₂ sameApartRefreshToken db0.users
        (update_token u0 (some "tok") db0).users ∧
     List.Forall₂ sameApartConfirmed db0.users db1c.users ∧
     List.Forall₂ sameApartPassword db0.users (u0pw, db1p).2.users ∧
     List.Forall₂ sameApartResetToken db0.users
        (update_reset_token u0 (some "rt") db0).2.users) :=
  ⟨⟨rfl, rfl⟩,
   mutations_preserve_other_fields u0 (some "tok") (some "rt")
     "ann@example.com" "npw" db0 db1c (u0pw, db1p) rfl rfl⟩

end UsersRepo
